import Mathlib

/-!
Verification of the curve-and-sampling core of the Bezier density
estimation app (`src/app.py`).

The core consists of two functions:

* `bezier_curve` (the spec's CurveEvaluator `evaluate`): a quadratic
  Bernstein blend of three control points.
* `generate_points_around_line` (the spec's PointSampler `sample`): for
  each of `num_points` iterations it draws a curve parameter `t` uniformly
  from `[0, 1]` and an angle `theta` uniformly from `[0, 2*pi)`, and emits
  the curve point offset by `max_distance * (cos theta, sin theta)`.

Python floats are modelled as real numbers.  The process-wide random
source is modelled as an explicit stream `g : Nat -> Real x Real` giving,
for iteration `i`, the pair `(t, theta)` drawn during that iteration;
properties that depend on the range of the draws take the range of
`random.uniform` as a hypothesis on the stream.  Python's
`range(num_points)` with an `int` argument runs `max(num_points, 0)`
iterations, which `Int.toNat` captures.
-/

namespace BezierDensity

/-- A 2D point, an ordered pair of real numbers `(x, y)`. -/
abbrev Point : Type := ℝ × ℝ

/-- `bezier_curve` from `src/app.py`, lines 9-14: computes a point on a
quadratic Bezier curve given control points `A`, `B`, `C` and a
parameter `t`. -/
noncomputable def bezier_curve (t : ℝ) (A B C : Point) : Point :=
  ((1 - t) ^ 2 * A.1 + 2 * (1 - t) * t * C.1 + t ^ 2 * B.1,
   (1 - t) ^ 2 * A.2 + 2 * (1 - t) * t * C.2 + t ^ 2 * B.2)

/-- `generate_points_around_line` from `src/app.py`, lines 16-31, with the
random draws made explicit: `(g i).1` is the value of
`random.uniform(0, 1)` and `(g i).2` the value of
`random.uniform(0, 2 * math.pi)` consumed in iteration `i` of the loop. -/
noncomputable def generate_points_around_line (g : ℕ → ℝ × ℝ) (a b c : Point)
    (num_points : ℤ) (max_distance : ℝ) : List Point :=
  (List.range num_points.toNat).map fun i =>
    ((bezier_curve (g i).1 a b c).1 + max_distance * Real.cos (g i).2,
     (bezier_curve (g i).1 a b c).2 + max_distance * Real.sin (g i).2)

/-- Euclidean distance between two points of the plane. -/
noncomputable def euclid_dist (p q : Point) : ℝ :=
  Real.sqrt ((p.1 - q.1) ^ 2 + (p.2 - q.2) ^ 2)

/-- Each sampled point sits at Euclidean distance `|max_distance|` from the
curve point evaluated at the `t` drawn for it (shared helper). -/
lemma generate_dist_abs (g : ℕ → ℝ × ℝ) (a b c : Point) (n : ℤ) (d : ℝ)
    (hg : ∀ i, 0 ≤ (g i).1 ∧ (g i).1 ≤ 1) :
    ∀ p ∈ generate_points_around_line g a b c n d,
      ∃ t, 0 ≤ t ∧ t ≤ 1 ∧ euclid_dist p (bezier_curve t a b c) = |d| := by
  intro p hp
  rw [generate_points_around_line, List.mem_map] at hp
  obtain ⟨i, -, rfl⟩ := hp
  refine ⟨(g i).1, (hg i).1, (hg i).2, ?_⟩
  rw [euclid_dist]
  have hsc : (d * Real.cos (g i).2) ^ 2 + (d * Real.sin (g i).2) ^ 2 = d ^ 2 := by
    linear_combination d ^ 2 * Real.sin_sq_add_cos_sq (g i).2
  calc Real.sqrt
        (((bezier_curve (g i).1 a b c).1 + d * Real.cos (g i).2
            - (bezier_curve (g i).1 a b c).1) ^ 2 +
          ((bezier_curve (g i).1 a b c).2 + d * Real.sin (g i).2
            - (bezier_curve (g i).1 a b c).2) ^ 2)
      = Real.sqrt (d ^ 2) := by rw [← hsc]; ring_nf
    _ = |d| := Real.sqrt_sq_eq_abs d

/-- Claim C1: for every real `t` and control points `A`, `B`, `C`,
`bezier_curve` returns the point whose coordinates are the quadratic
Bernstein blend with `A` and `B` on the endpoint basis polynomials
(degree-2 Bernstein indices 0 and 2) and `C` on the cross term
(index 1), in both coordinates. -/
theorem bezier_matches_bernstein_blend (t : ℝ) (A B C : Point) :
    bezier_curve t A B C =
      ((bernsteinPolynomial ℝ 2 0).eval t * A.1 +
         (bernsteinPolynomial ℝ 2 1).eval t * C.1 +
         (bernsteinPolynomial ℝ 2 2).eval t * B.1,
       (bernsteinPolynomial ℝ 2 0).eval t * A.2 +
         (bernsteinPolynomial ℝ 2 1).eval t * C.2 +
         (bernsteinPolynomial ℝ 2 2).eval t * B.2) := by
  rw [bezier_curve, bernsteinPolynomial, bernsteinPolynomial, bernsteinPolynomial]
  simp only [Polynomial.eval_mul, Polynomial.eval_pow, Polynomial.eval_sub,
    Polynomial.eval_one, Polynomial.eval_X, Polynomial.eval_natCast, Prod.ext_iff,
    Nat.choose_self, Nat.choose_zero_right, Nat.choose_one_right, Nat.cast_one,
    Nat.cast_ofNat, Polynomial.eval_ofNat]
  constructor <;> ring

/-- Claim C2: for all control points, `bezier_curve 0 A B C = A` and
`bezier_curve 1 A B C = B` (endpoint exactness). -/
theorem bezier_endpoint_exactness (A B C : Point) :
    bezier_curve 0 A B C = A ∧ bezier_curve 1 A B C = B := by
  constructor <;> · rw [bezier_curve, Prod.ext_iff]; constructor <;> ring_nf

/-- Claim C3: provided the per-iteration parameter draws are in `[0, 1]`
(the range of `random.uniform(0, 1)`) and `max_distance` is non-negative,
every point returned by the sampler lies at Euclidean distance exactly
`max_distance` from some point `bezier_curve t a b c` with `t` in
`[0, 1]`. -/
theorem sample_points_exact_distance (g : ℕ → ℝ × ℝ) (a b c : Point) (n : ℤ) (d : ℝ)
    (hd : 0 ≤ d) (hg : ∀ i, 0 ≤ (g i).1 ∧ (g i).1 ≤ 1) :
    ∀ p ∈ generate_points_around_line g a b c n d,
      ∃ t, 0 ≤ t ∧ t ≤ 1 ∧ euclid_dist p (bezier_curve t a b c) = d := by
  intro p hp
  obtain ⟨t, h0, h1, habs⟩ := generate_dist_abs g a b c n d hg p hp
  exact ⟨t, h0, h1, by rw [habs, abs_of_nonneg hd]⟩

/-- Witness for C3: the spec scenario `A=(0,0)`, `B=(10,10)`, `C=(3,8)`,
`count=5`, `max_distance=0`, with every draw equal to `(0, 0)`: the point
`(0, 0)` is produced and lies at distance `0` from the curve. -/
theorem sample_points_exact_distance_witness :
    ∃ t, 0 ≤ t ∧ t ≤ 1 ∧
      euclid_dist ((0 : ℝ), (0 : ℝ)) (bezier_curve t ((0 : ℝ), 0) (10, 10) (3, 8)) = 0 :=
  sample_points_exact_distance (fun _ => (0, 0)) (0, 0) (10, 10) (3, 8) 5 0 le_rfl
    (fun _ => ⟨le_rfl, zero_le_one⟩) (0, 0)
    (by
      rw [generate_points_around_line]
      refine List.mem_map.mpr ⟨0, by simp, ?_⟩
      norm_num [bezier_curve])

/-- Claim C4: for non-negative `count`, the sampler returns a list of
exactly `count` points, and `count = 0` yields the empty list. -/
theorem sample_count_length (g : ℕ → ℝ × ℝ) (a b c : Point) (n : ℤ) (d : ℝ)
    (h : 0 ≤ n) :
    ((generate_points_around_line g a b c n d).length : ℤ) = n ∧
    (n = 0 → generate_points_around_line g a b c n d = []) := by
  have hlen : (generate_points_around_line g a b c n d).length = n.toNat := by
    rw [generate_points_around_line, List.length_map, List.length_range]
  refine ⟨by rw [hlen, Int.toNat_of_nonneg h], fun h0 => ?_⟩
  subst h0
  exact List.length_eq_zero.mp (by simp [hlen])

/-- Witness for C4: a call with `count = 5` returns exactly 5 points. -/
theorem sample_count_length_witness :
    (0 : ℤ) ≤ 5 ∧
    ((generate_points_around_line (fun _ => (0, 0)) ((0 : ℝ), 0) (10, 10) (3, 8)
        5 1).length : ℤ) = 5 :=
  ⟨by norm_num,
   (sample_count_length (fun _ => (0, 0)) ((0 : ℝ), 0) (10, 10) (3, 8) 5 1
      (by norm_num)).1⟩

/-- Counterexample to C5 as stated: at `t = 0.5` with `A=(0,0)`,
`B=(10,10)`, `C=(3,8)`, the code does not return `(5.5, 10.5)` (the
cross coefficient `2(1-t)t` is `0.5` at `t = 0.5`, not `1`). -/
theorem bezier_half_scenario_counterexample :
    bezier_curve (0.5 : ℝ) ((0 : ℝ), 0) (10, 10) (3, 8) ≠ ((5.5 : ℝ), (10.5 : ℝ)) := by
  rw [bezier_curve]
  intro h
  rw [Prod.mk.injEq] at h
  norm_num at h

/-- Claim C5 amended: at `t = 0.5` with `A=(0,0)`, `B=(10,10)`, `C=(3,8)`,
the code returns `(0.25*0 + 0.5*3 + 0.25*10, 0.25*0 + 0.5*8 + 0.25*10)
= (4, 6.5)`. -/
theorem bezier_half_scenario_value :
    bezier_curve (0.5 : ℝ) ((0 : ℝ), 0) (10, 10) (3, 8) = ((4 : ℝ), (6.5 : ℝ)) := by
  rw [bezier_curve, Prod.mk.injEq]
  norm_num

/-- Counterexample to C7 as stated: a call with `count = 1` and
`max_distance = -1` (draws all zero) returns the non-empty list
`[(-1, 0)]` of valid-looking points; it is neither a failure nor
normalized to empty output. -/
theorem negative_distance_nonempty_counterexample :
    generate_points_around_line (fun _ => (0, 0)) ((0 : ℝ), 0) (0, 0) (0, 0) 1 (-1) =
      [((-1 : ℝ), (0 : ℝ))] ∧ ([((-1 : ℝ), (0 : ℝ))] : List Point) ≠ [] := by
  refine ⟨?_, by simp⟩
  rw [generate_points_around_line]
  norm_num [bezier_curve, Real.cos_zero, Real.sin_zero]

/-- Claim C7 amended: a negative `count` is normalized to empty output,
but a negative `max_distance` is silently accepted: the sampler still
returns its points, each at distance `|max_distance|` from the curve,
with no failure raised. -/
theorem negative_args_behavior (g : ℕ → ℝ × ℝ) (a b c : Point) (n : ℤ) (d : ℝ)
    (hg : ∀ i, 0 ≤ (g i).1 ∧ (g i).1 ≤ 1) :
    (n < 0 → generate_points_around_line g a b c n d = []) ∧
    ∀ p ∈ generate_points_around_line g a b c n d,
      ∃ t, 0 ≤ t ∧ t ≤ 1 ∧ euclid_dist p (bezier_curve t a b c) = |d| := by
  refine ⟨fun hn => ?_, generate_dist_abs g a b c n d hg⟩
  rw [generate_points_around_line, Int.toNat_of_nonpos hn.le]
  rfl

/-- Witness for the amended C7: with `count = 1` and `max_distance = -1`
the returned point `(-1, 0)` is at distance `|-1| = 1` from the curve —
non-empty output, no failure. -/
theorem negative_args_behavior_witness :
    ∃ t, 0 ≤ t ∧ t ≤ 1 ∧
      euclid_dist ((-1 : ℝ), (0 : ℝ)) (bezier_curve t ((0 : ℝ), 0) (0, 0) (0, 0)) =
        |(-1 : ℝ)| :=
  (negative_args_behavior (fun _ => (0, 0)) ((0 : ℝ), 0) (0, 0) (0, 0) 1 (-1)
      (fun _ => ⟨le_rfl, zero_le_one⟩)).2 (-1, 0)
    (by
      rw [generate_points_around_line]
      refine List.mem_map.mpr ⟨0, by simp, ?_⟩
      norm_num [bezier_curve, Real.cos_zero, Real.sin_zero])

/-- Claim C8: `bezier_curve` is a total function of the real parameter
`t`, with no domain restriction to `[0, 1]`: for all control points it is
a (continuous, hence everywhere-defined) polynomial map on all of `ℝ`. -/
theorem bezier_total_continuous (A B C : Point) :
    Continuous fun t : ℝ => bezier_curve t A B C := by
  unfold bezier_curve
  fun_prop

/-- Claim C9: for every negative `count`, the sampler returns the empty
list without any error (Python `range` of a negative integer is empty). -/
theorem negative_count_empty (g : ℕ → ℝ × ℝ) (a b c : Point) (n : ℤ) (d : ℝ)
    (hn : n < 0) : generate_points_around_line g a b c n d = [] := by
  rw [generate_points_around_line, Int.toNat_of_nonpos hn.le]
  rfl

/-- Witness for C9: `count = -1` yields the empty list. -/
theorem negative_count_empty_witness :
    (-1 : ℤ) < 0 ∧
    generate_points_around_line (fun _ => (0, 0)) ((0 : ℝ), 0) (10, 10) (3, 8)
      (-1) 1 = [] :=
  ⟨by norm_num,
   negative_count_empty (fun _ => (0, 0)) ((0 : ℝ), 0) (10, 10) (3, 8) (-1) 1
     (by norm_num)⟩

/-- Claim C10: for `t` in `[0, 1]` the three Bernstein coefficients are
non-negative and sum to `1`, the evaluated point lies in the convex hull
of the control points, and a degenerate curve with `A = B = C` collapses
to that single point for every real parameter. -/
theorem bezier_convex_hull (A B C : Point) (t : ℝ) (h0 : 0 ≤ t) (h1 : t ≤ 1) :
    0 ≤ (1 - t) ^ 2 ∧ 0 ≤ 2 * (1 - t) * t ∧ 0 ≤ t ^ 2 ∧
    (1 - t) ^ 2 + 2 * (1 - t) * t + t ^ 2 = 1 ∧
    bezier_curve t A B C ∈ convexHull ℝ ({A, B, C} : Set Point) ∧
    ∀ s : ℝ, bezier_curve s A A A = A := by
  have ht : 0 ≤ 1 - t := by linarith
  refine ⟨sq_nonneg _, mul_nonneg (mul_nonneg (by norm_num) ht) h0, sq_nonneg _,
    by ring, ?_, fun s => ?_⟩
  · have hconv := convex_convexHull ℝ ({A, B, C} : Set Point)
    have hA : A ∈ convexHull ℝ ({A, B, C} : Set Point) :=
      subset_convexHull ℝ _ (by simp)
    have hB : B ∈ convexHull ℝ ({A, B, C} : Set Point) :=
      subset_convexHull ℝ _ (by simp)
    have hC : C ∈ convexHull ℝ ({A, B, C} : Set Point) :=
      subset_convexHull ℝ _ (by simp)
    have hq1 : (1 - t) • A + t • C ∈ convexHull ℝ ({A, B, C} : Set Point) :=
      hconv hA hC ht h0 (by ring)
    have hq2 : (1 - t) • C + t • B ∈ convexHull ℝ ({A, B, C} : Set Point) :=
      hconv hC hB ht h0 (by ring)
    have heq : bezier_curve t A B C =
        (1 - t) • ((1 - t) • A + t • C) + t • ((1 - t) • C + t • B) := by
      rw [bezier_curve]
      simp only [Prod.ext_iff, Prod.fst_add, Prod.snd_add, Prod.smul_fst,
        Prod.smul_snd, smul_eq_mul]
      constructor <;> ring
    rw [heq]
    exact hconv hq1 hq2 ht h0 (by ring)
  · rw [bezier_curve, Prod.ext_iff]
    constructor <;> · simp only []; ring

/-- Witness for C10: the spec scenario point `bezier_curve 0.5` lies in
the convex hull of `{(0,0), (10,10), (3,8)}`, and the degenerate curve at
`P = (2, 3)` stays at `P`. -/
theorem bezier_convex_hull_witness :
    bezier_curve (0.5 : ℝ) ((0 : ℝ), 0) (10, 10) (3, 8) ∈
      convexHull ℝ ({((0 : ℝ), (0 : ℝ)), (10, 10), (3, 8)} : Set Point) ∧
    bezier_curve (0.5 : ℝ) ((2 : ℝ), 3) ((2 : ℝ), 3) ((2 : ℝ), 3) = ((2 : ℝ), 3) :=
  ⟨(bezier_convex_hull ((0 : ℝ), 0) (10, 10) (3, 8) 0.5 (by norm_num)
      (by norm_num)).2.2.2.2.1,
   (bezier_convex_hull ((2 : ℝ), 3) ((2 : ℝ), 3) ((2 : ℝ), 3) 0.5 (by norm_num)
      (by norm_num)).2.2.2.2.2 0.5⟩

end BezierDensity
